import Mathlib

/-!
Verification of the ChatInterface component (frontend/src/components, final
revision with structured forecast rendering).  The component is embedded
shallowly: JavaScript values are modelled by the inductive `Js`, component
state by `ChatState`, and the two async handlers `handleFileUpload` and
`handleSend` by pure functions from the pre-state, the id draws consumed by
the message-append helpers, and the outcome of the `fetch` call, to the
post-state (plus the request emitted, when one is).
-/

namespace ChatUI

/-- JavaScript-like JSON values.  `undefined` stands for the JavaScript value
`undefined` (in particular the result of reading an absent property); numbers
are modelled as integers, which covers every value the claims mention. -/
inductive Js where
  | null
  | undefined
  | bool (b : Bool)
  | num (n : Int)
  | str (s : String)
  | arr (elems : List Js)
  | obj (fields : List (String × Js))
deriving Repr

/-- First binding of `key` in an object field list (JavaScript objects cannot
hold duplicate keys, so field lists are assumed key-distinct). -/
def lookupField : List (String × Js) → String → Js
  | [], _ => .undefined
  | (k, v) :: rest, key => if k = key then v else lookupField rest key

/-- Property read `v[key]`: `undefined` on non-objects and absent keys. -/
def jsGet : Js → String → Js
  | .obj fs, key => lookupField fs key
  | _, _ => .undefined

/-- JavaScript truthiness (`Boolean(v)`). -/
def jsTruthy : Js → Bool
  | .null => false
  | .undefined => false
  | .bool b => b
  | .num n => n != 0
  | .str s => !s.isEmpty
  | .arr _ => true
  | .obj _ => true

/-- The test `Array.isArray(v)`. -/
def isArr : Js → Bool
  | .arr _ => true
  | _ => false

/-- The coalescing operator `a || b`. -/
def jsOr (a b : Js) : Js := if jsTruthy a then a else b

mutual

/-- String conversion of an array element inside `Array.prototype.toString`
(null and undefined elements convert to the empty string). -/
def elemToString : Js → String
  | .null => ""
  | .undefined => ""
  | .bool b => if b then "true" else "false"
  | .num n => toString n
  | .str s => s
  | .arr xs => arrJoin xs
  | .obj _ => "[object Object]"

/-- Comma join of array elements, as in `Array.prototype.toString`. -/
def arrJoin : List Js → String
  | [] => ""
  | [x] => elemToString x
  | x :: y :: rest => elemToString x ++ "," ++ arrJoin (y :: rest)

end

/-- The coercion `String(v)`. -/
def jsToString : Js → String
  | .null => "null"
  | .undefined => "undefined"
  | .bool b => if b then "true" else "false"
  | .num n => toString n
  | .str s => s
  | .arr xs => arrJoin xs
  | .obj _ => "[object Object]"

/-- A run of `n` spaces, for JSON pretty-printing with indent width 2. -/
def spaces (n : Nat) : String := String.mk (List.replicate n ' ')

/-- One hexadecimal digit. -/
def hexDigit (n : Nat) : Char :=
  if n < 10 then Char.ofNat (48 + n) else Char.ofNat (87 + n)

/-- Four-digit hexadecimal rendering of a code point below 0x10000. -/
def hex4 (n : Nat) : String :=
  String.mk [hexDigit (n / 4096 % 16), hexDigit (n / 256 % 16),
             hexDigit (n / 16 % 16), hexDigit (n % 16)]

/-- JSON escaping of one character, as `JSON.stringify` performs it. -/
def escapeChar (c : Char) : String :=
  if c = '"' then "\\\""
  else if c = '\\' then "\\\\"
  else if c = '\n' then "\\n"
  else if c = '\r' then "\\r"
  else if c = '\t' then "\\t"
  else if c = Char.ofNat 8 then "\\b"
  else if c = Char.ofNat 12 then "\\f"
  else if c.toNat < 32 then "\\u" ++ hex4 c.toNat
  else String.mk [c]

/-- A JSON string literal: quotes around the escaped characters. -/
def quoteStr (s : String) : String :=
  "\"" ++ String.join (s.toList.map escapeChar) ++ "\""

/-- Comma-newline join of already-rendered lines. -/
def joinLines : List String → String
  | [] => ""
  | [l] => l
  | l :: m :: rest => l ++ ",\n" ++ joinLines (m :: rest)

mutual

/-- The value part of `JSON.stringify(v, null, 2)` at indentation `ind`
(the indentation of the closing bracket of the enclosing composite). -/
def jsonVal : Js → Nat → String
  | .null, _ => "null"
  | .undefined, _ => "undefined"
  | .bool b, _ => if b then "true" else "false"
  | .num n, _ => toString n
  | .str s, _ => quoteStr s
  | .arr [], _ => "[]"
  | .arr (x :: xs), ind =>
      "[\n" ++ jsonItems (x :: xs) (ind + 2) ++ "\n" ++ spaces ind ++ "]"
  | .obj fs, ind =>
      match jsonFields fs (ind + 2) with
      | [] => "\x7b\x7d"
      | f :: rest =>
          "\x7b\n" ++ joinLines (f :: rest) ++ "\n" ++ spaces ind ++ "\x7d"

/-- Array items, each on its own indented line (an `undefined` element prints
as `null`, as `JSON.stringify` does inside arrays). -/
def jsonItems : List Js → Nat → String
  | [], _ => ""
  | [x], ind =>
      spaces ind ++ (match x with | .undefined => "null" | v => jsonVal v ind)
  | x :: y :: rest, ind =>
      spaces ind ++ (match x with | .undefined => "null" | v => jsonVal v ind)
        ++ ",\n" ++ jsonItems (y :: rest) ind

/-- Object fields rendered one line each; fields whose value is `undefined`
are skipped, as `JSON.stringify` skips them. -/
def jsonFields : List (String × Js) → Nat → List String
  | [], _ => []
  | (k, v) :: rest, ind =>
      match v with
      | .undefined => jsonFields rest ind
      | v => (spaces ind ++ quoteStr k ++ ": " ++ jsonVal v ind) :: jsonFields rest ind

end

/-- The call `JSON.stringify(v, null, 2)` used for the Results/whole-response
dumps in the plain-text chat path. -/
def jsonStringify2 (v : Js) : String := jsonVal v 0

/-- The whitespace characters trimmed by our model of `String.prototype.trim`
(the ASCII whitespace the component ever meets). -/
def jsWhitespace (c : Char) : Bool := c == ' ' || c == '\t' || c == '\n' || c == '\r'

/-- Model of `s.trim()`. -/
def jsTrim (s : String) : String :=
  (((s.toList.dropWhile jsWhitespace).reverse.dropWhile jsWhitespace).reverse).asString

/-- Index of the first occurrence of `needle` in the haystack starting at
offset `acc`, character-wise; `none` when it does not occur. -/
def findSub (needle : List Char) : List Char → Nat → Option Nat
  | [], acc => if needle.isPrefixOf ([] : List Char) then some acc else none
  | c :: rest, acc =>
      if needle.isPrefixOf (c :: rest) then some acc
      else findSub needle rest (acc + 1)

/-- Index of the first occurrence of `m` in `t` as an option. -/
def natIndexOf (t m : String) : Option Nat :=
  findSub m.toList t.toList 0

/-- Model of `t.indexOf(m)` with the JavaScript `-1` sentinel. -/
def jsIndexOf (t m : String) : Int :=
  match natIndexOf t m with
  | some i => (i : Int)
  | none => -1

/-- Model of `t.slice(0, n)` for a nonnegative bound. -/
def strTake (t : String) (n : Nat) : String := (t.toList.take n).asString

/-- The fixed, case-sensitive marker list `cutMarkers` of
`cleanAssistantText`. -/
def cutMarkers : List String :=
  ["Forecast (head):",
   "Forecast(head):",
   "Forecast head:",
   "Forecast (tail):",
   "Forecast(tail):",
   "Forecast tail:",
   "\nResults:",
   "Results:"]

/-- One step of the marker loop of `cleanAssistantText`: keep the running
minimum of the indices found, with `-1` meaning nothing found yet. -/
def markerStep (t : String) (idx : Int) (m : String) : Int :=
  let i := jsIndexOf t m
  if i ≠ -1 then (if idx = -1 then i else min idx i) else idx

/-- The function `cleanAssistantText`: falsy input yields the empty string;
otherwise truncate at the smallest marker index if any marker occurs, trim,
and fall back to a fixed header when the remainder is empty. -/
def cleanAssistantText (text : Js) : String :=
  if !(jsTruthy text) then ""
  else
    let t := jsToString text
    let idx := cutMarkers.foldl (markerStep t) (-1)
    let t := if idx ≠ -1 then strTake t idx.toNat else t
    let t := jsTrim t
    if t.isEmpty then "Forecast completed." else t

/-- Modelled from the claim wording, for comparison with the code: truncate
the input at the earliest occurrence across the marker set, trim surrounding
whitespace, and return the fallback whenever the result is empty. -/
def cleanSpec (text : String) : String :=
  let occ := cutMarkers.filterMap (fun m => natIndexOf text m)
  let t := match occ.min? with
    | some i => strTake text i
    | none => text
  let t := jsTrim t
  if t.isEmpty then "Forecast completed." else t

/-- The keys of a row as `Object.keys(r || \x7b\x7d)` produces them: insertion
order for objects, none for every other value. -/
def rowKeys : Js → List String
  | .obj fs => fs.map (fun p => p.1)
  | _ => []

/-- Add one key to the column accumulator unless it is already present —
exactly what inserting into the `Set` and reading it back in insertion order
does. -/
def addKey (acc : List String) (k : String) : List String :=
  if acc.contains k then acc else acc ++ [k]

/-- The column list of `DataTable`: union of the keys of all rows in
first-seen order. -/
def tableColumns (rs : List Js) : List String :=
  rs.foldl (fun acc r => (rowKeys r).foldl addKey acc) []

/-- One rendered cell of `DataTable`: empty for a missing, `null` or
`undefined` value, `String(v)` otherwise. -/
def renderCell (r : Js) (c : String) : String :=
  match jsGet r c with
  | .null => ""
  | .undefined => ""
  | v => jsToString v

/-- The visible content of a rendered `DataTable`. -/
structure TableView where
  columns : List String
  body : List (List String)
deriving Repr

/-- The `DataTable` component: renders nothing for a non-array or empty
input, otherwise one row of cells per input element, one cell per column. -/
def dataTable (rows : Js) : Option TableView :=
  match rows with
  | .arr rs =>
      if rs.isEmpty then none
      else some { columns := tableColumns rs,
                  body := rs.map (fun r => (tableColumns rs).map (renderCell r)) }
  | _ => none

/-- Modelled from the claim wording: the column set as first-seen
deduplication of the concatenation of all row key lists. -/
def firstSeenUnion (rs : List Js) : List String :=
  (rs.flatMap rowKeys).foldl addKey []

/-- Message senders. -/
inductive Sender where
  | user
  | bot
deriving DecidableEq, Repr

/-- Entries of the message log.  The `id` of every appended message is the
value of the expression `Date.now() + Math.random()` at the append, which our
embedding treats as a draw supplied by the environment (a rational). -/
inductive Msg where
  | plain (id : ℚ) (text : String) (sender : Sender) (isError : Bool)
  | uploadPreview (id : ℚ) (filename : String) (dsId : Js) (headRows : List Js)
  | forecast (id : ℚ) (isError : Bool) (assistantText : Js) (results : Option Js)
deriving Repr

/-- The id of a message. -/
def msgId : Msg → ℚ
  | .plain i _ _ _ => i
  | .uploadPreview i _ _ _ => i
  | .forecast i _ _ _ => i

/-- The error flag of a message (absent on upload previews, hence false). -/
def msgIsError : Msg → Bool
  | .plain _ _ _ e => e
  | .uploadPreview _ _ _ _ => false
  | .forecast _ e _ _ => e

/-- The `kind` field of a message (`none` for the default text bubble). -/
def msgKind : Msg → Option String
  | .plain _ _ _ _ => none
  | .uploadPreview _ _ _ _ => some "upload_preview"
  | .forecast _ _ _ _ => some "forecast"

/-- The component state: the `useState` hooks plus the value of the file
picker control (reset by `e.target.value` at the end of an upload). -/
structure ChatState where
  messages : List Msg
  input : String
  isLoading : Bool
  datasetId : Js
  fileName : String
  uploadError : String
  chatError : String
  fileInputValue : String
deriving Repr

/-- The initial state of the component. -/
def initState : ChatState :=
  { messages := [.plain 1 "Hello! Upload a CSV file to begin." .bot false],
    input := "",
    isLoading := false,
    datasetId := .null,
    fileName := "",
    uploadError := "",
    chatError := "",
    fileInputValue := "" }

/-- Outcome of one `fetch` call and the subsequent `response.json()`:
either the fetch itself rejects, or a response with an `ok` flag and a status
arrives, whose body then parses to a `Js` value or fails to parse. -/
inductive FetchOutcome where
  | netError (msg : String)
  | response (httpOk : Bool) (status : Nat) (jsonResult : Except String Js)
deriving Repr

/-- The body posted to the chat endpoint. -/
structure ChatRequest where
  dataset_id : Js
  message : String
  show_code : Bool
deriving Repr

/-- The helper `addBotMessage(text, isError)`. -/
def addBotMessage (s : ChatState) (id : ℚ) (text : String) (isError : Bool) : ChatState :=
  { s with messages := s.messages ++ [.plain id text .bot isError] }

/-- The helper `addUserMessage(text)`. -/
def addUserMessage (s : ChatState) (id : ℚ) (text : String) : ChatState :=
  { s with messages := s.messages ++ [.plain id text .user false] }

/-- The helper `addBotPreviewMessage`: a non-array `headRows` argument is
replaced by the empty row list. -/
def addBotPreviewMessage (s : ChatState) (id : ℚ) (filename : String)
    (dsId : Js) (headRows : Js) : ChatState :=
  { s with messages := s.messages ++
      [.uploadPreview id filename dsId
        (match headRows with | .arr xs => xs | _ => [])] }

/-- The helper `addBotForecastMessage`: falsy `assistantText` is stored as
the empty string. -/
def addBotForecastMessage (s : ChatState) (id : ℚ) (assistantText : Js)
    (results : Option Js) (isError : Bool) : ChatState :=
  { s with messages := s.messages ++
      [.forecast id isError (if jsTruthy assistantText then assistantText else .str "")
        results] }

/-- The `results` value the chat handler works with: `data.results || null`
as an option. -/
def chatResultsOf (body : Js) : Option Js :=
  if jsTruthy (jsGet body "results") then some (jsGet body "results") else none

/-- The `hasForecastTables` test of `handleSend`. -/
def hasForecastTablesOf : Option Js → Bool
  | some r => isArr (jsGet r "forecast_head") || isArr (jsGet r "forecast_tail")
  | none => false

/-- The `catch` block of `handleSend`: an empty thrown message falls back to
the generic apology, the error banner is set, and one error-flagged bot
message is appended. -/
def chatCatch (s : ChatState) (id : ℚ) (thrown : String) : ChatState :=
  let msg := if thrown.isEmpty then "Sorry, something went wrong. Please try again." else thrown
  addBotMessage { s with chatError := msg } id ("Error: " ++ msg) true

/-- The assistant reply normalization
`data.assistant_message || data.reply || data.message || ""`. -/
def chatAssistantText (body : Js) : Js :=
  jsOr (jsGet body "assistant_message")
    (jsOr (jsGet body "reply") (jsOr (jsGet body "message") (.str "")))

/-- JavaScript `x + s` for a string right operand: coerces `x` to its string
conversion and concatenates (this is what `botMessageText += ...` does when
`botMessageText` still holds a non-string reply). -/
def jsPlusStr (x : Js) (s : String) : Js := .str (jsToString x ++ s)

/-- Whether a value is a JavaScript string — among JSON values, exactly the
ones carrying a `.trim` method. -/
def isStrJs : Js → Bool
  | .str _ => true
  | _ => false

/-- The message of the TypeError thrown by `botMessageText.trim()` when the
value is not a string; the exact wording is engine-specific, so the model
fixes one representative (nothing proved below depends on this text). -/
def trimTypeErrorMsg : String := "botMessageText.trim is not a function"

/-- The plain-text chat path, mirroring the source statement by statement:
`botMessageText` starts as the raw normalized reply; each appended
Results/Error dump coerces it to a string via `+=`; the final blank test
calls `.trim()`, which throws a TypeError when the value is still a
non-string (a truthy non-string reply with neither dump appended).  Returns
the assembled text, or the thrown message. -/
def chatPlainOutcome (body : Js) : Except String String :=
  let bmt : Js := chatAssistantText body
  let bmt := match chatResultsOf body with
    | some r => jsPlusStr bmt ("\n\nResults:\n" ++ jsonStringify2 r)
    | none => bmt
  let bmt := if jsTruthy (jsGet body "error")
    then jsPlusStr bmt ("\n\nError:\n" ++ jsToString (jsGet body "error"))
    else bmt
  match bmt with
  | .str t => .ok (if (jsTrim t).isEmpty then jsonStringify2 body else t)
  | _ => .error trimTypeErrorMsg

/-- The success tail of `handleSend` (after `data.ok` proved truthy):
normalize the assistant text, branch on the presence of forecast tables, and
append the one resulting bot message; a TypeError thrown by the blank test
of the plain path diverts to the catch block. -/
def chatSuccess (s : ChatState) (id : ℚ) (body : Js) : ChatState :=
  if hasForecastTablesOf (chatResultsOf body) then
    addBotForecastMessage s id (chatAssistantText body) (chatResultsOf body)
      (jsTruthy (jsGet body "error"))
  else
    match chatPlainOutcome body with
    | .ok t => addBotMessage s id t (jsTruthy (jsGet body "error"))
    | .error m => chatCatch s id m

/-- The `try` block of `handleSend` from the response on: HTTP failure, parse
failure and a non-truthy body `ok` throw into the catch; otherwise the
success tail runs. -/
def chatDispatch (s : ChatState) (i2 : ℚ) (fo : FetchOutcome) : ChatState :=
  match fo with
  | .netError m => chatCatch s i2 m
  | .response httpOk status jr =>
      if !httpOk then chatCatch s i2 ("Chat request failed: " ++ toString status)
      else
        match jr with
        | .error m => chatCatch s i2 m
        | .ok body =>
            if !(jsTruthy (jsGet body "ok")) then
              chatCatch s i2
                (if jsTruthy (jsGet body "error")
                 then jsToString (jsGet body "error") else "Chat failed")
            else chatSuccess s i2 body

/-- The chat submit handler.  `i1` and `i2` are the id draws of the (up to
two) appended messages in order; `fo` is the outcome of the `/chat` fetch,
which is consulted only when a request is actually made.  Returns the new
state and the request body sent, `none` when no network call happens. -/
def handleSend (s : ChatState) (i1 i2 : ℚ) (fo : FetchOutcome) :
    ChatState × Option ChatRequest :=
  let s := { s with chatError := "" }
  if (jsTrim s.input).isEmpty then (s, none)
  else if !(jsTruthy s.datasetId) then
    (addBotMessage s i1 "Please upload a CSV file first (above)." true, none)
  else
    let text := jsTrim s.input
    let s := addUserMessage s i1 text
    let s := { s with input := "", isLoading := true }
    let req : ChatRequest := { dataset_id := s.datasetId, message := text, show_code := false }
    let s := chatDispatch s i2 fo
    ({ s with isLoading := false }, some req)

/-- The `catch` block of `handleFileUpload`. -/
def uploadCatch (s : ChatState) (id : ℚ) (thrown : String) : ChatState :=
  let msg := if thrown.isEmpty then "Failed to upload file." else thrown
  addBotMessage { s with uploadError := msg } id ("Upload error: " ++ msg) true

/-- The instruction message appended after a successful upload preview. -/
def uploadInstruction : String :=
  "Now type a message like \"hi\" to get the plan and proposed ds/y, then reply \"confirm\"."

/-- The success tail of `handleFileUpload` (after body `ok` proved truthy):
store the dataset id and file name, append the table preview message, then
the static instruction message. -/
def uploadSuccess (s : ChatState) (fname : String) (i1 i2 : ℚ) (body : Js) : ChatState :=
  let shownName :=
    if jsTruthy (jsGet body "filename")
    then jsToString (jsGet body "filename") else fname
  let s := { s with datasetId := jsGet body "dataset_id", fileName := shownName }
  let s := addBotPreviewMessage s i1 shownName (jsGet body "dataset_id")
    (jsOr (jsGet (jsGet body "preview") "head") (.arr []))
  addBotMessage s i2 uploadInstruction false

/-- The `try` block of `handleFileUpload` from the response on. -/
def uploadDispatch (s : ChatState) (fname : String) (i1 i2 : ℚ)
    (fo : FetchOutcome) : ChatState :=
  match fo with
  | .netError m => uploadCatch s i1 m
  | .response httpOk status jr =>
      if !httpOk then uploadCatch s i1 ("Upload failed: " ++ toString status)
      else
        match jr with
        | .error m => uploadCatch s i1 m
        | .ok body =>
            if !(jsTruthy (jsGet body "ok")) then
              uploadCatch s i1
                (if jsTruthy (jsGet body "error")
                 then jsToString (jsGet body "error") else "Upload failed")
            else uploadSuccess s fname i1 i2 body

/-- The file upload handler.  `file` is the selected file name (`none` when
the change event carries no file); `i1`, `i2` are the id draws of the (up to
two) appended messages; `fo` the `/upload` fetch outcome.  Returns the new
state and whether a network call was made. -/
def handleFileUpload (s : ChatState) (file : Option String) (i1 i2 : ℚ)
    (fo : FetchOutcome) : ChatState × Bool :=
  match file with
  | none => (s, false)
  | some fname =>
      let s := { s with uploadError := "", chatError := "", isLoading := true }
      let s := uploadDispatch s fname i1 i2 fo
      ({ s with isLoading := false, fileInputValue := "" }, true)

/-- One user interaction: either a file-pick (triggering `handleFileUpload`)
or a chat submission with the text typed into the input field (triggering
`handleSend`).  Each event carries the id draws its appends would consume and
the fetch outcome its network call would observe. -/
inductive Event where
  | upload (file : Option String) (i1 i2 : ℚ) (fo : FetchOutcome)
  | chat (text : String) (i1 i2 : ℚ) (fo : FetchOutcome)

/-- Apply one event to the state. -/
def step (s : ChatState) : Event → ChatState
  | .upload f i1 i2 fo => (handleFileUpload s f i1 i2 fo).1
  | .chat t i1 i2 fo => (handleSend { s with input := t } i1 i2 fo).1

/-- Run a sequence of events from a state. -/
def run (s : ChatState) : List Event → ChatState
  | [] => s
  | e :: es => run (step s e) es

/-- The id draws an event supplies, in consumption order. -/
def eventIds : Event → List ℚ
  | .upload _ i1 i2 _ => [i1, i2]
  | .chat _ i1 i2 _ => [i1, i2]

/-- The response body of an upload event that reaches the success path
(a file was selected, HTTP ok, body parsed, body `ok` truthy). -/
def uploadResponseBody : Event → Option Js
  | .upload (some _) _ _ (.response true _ (.ok body)) =>
      if jsTruthy (jsGet body "ok") then some body else none
  | _ => none

/-- An event is upload-successful when it is not an upload carrying a file,
or it is one and its fetch outcome reaches the success path. -/
def uploadEventOk : Event → Bool
  | .upload (some _) _ _ (.response true _ (.ok body)) => jsTruthy (jsGet body "ok")
  | .upload (some _) _ _ _ => false
  | _ => true

/-- The `dataset_id` of the most recent successful upload in the trace,
starting from `d`. -/
def lastUploadId (d : Js) : List Event → Js
  | [] => d
  | e :: es =>
      lastUploadId
        (match uploadResponseBody e with
         | some body => jsGet body "dataset_id"
         | none => d) es

/-- The failure reason `handleFileUpload` ends up with for a fetch outcome
that does not reach the success path (`none` on the success path). -/
def uploadFailReason : FetchOutcome → Option String
  | .netError m => some (if m.isEmpty then "Failed to upload file." else m)
  | .response false status _ => some ("Upload failed: " ++ toString status)
  | .response true _ (.error m) => some (if m.isEmpty then "Failed to upload file." else m)
  | .response true _ (.ok body) =>
      if jsTruthy (jsGet body "ok") then none
      else
        let em := if jsTruthy (jsGet body "error")
          then jsToString (jsGet body "error") else "Upload failed"
        some (if em.isEmpty then "Failed to upload file." else em)

/-- A concatenation starting with a nonempty string is nonempty. -/
theorem cat_isEmpty_false (a b : String) (h : a ≠ "") : (a ++ b).isEmpty = false := by
  rw [Bool.eq_false_iff]
  intro hcon
  have h3 := (String.isEmpty_iff _).mp hcon
  have h2 := congrArg String.data h3
  simp [String.data_append] at h2
  apply h
  cases a
  cases h2.1
  rfl

/-- C4: for every chat submission whose input text is empty or consists only
of whitespace, `handleSend` performs no network call (the emitted request is
`none`) and appends no message to the message log. -/
theorem blank_input_sends_nothing (s : ChatState) (i1 i2 : ℚ) (fo : FetchOutcome)
    (h : jsTrim s.input = "") :
    (handleSend s i1 i2 fo).2 = none ∧
    (handleSend s i1 i2 fo).1.messages = s.messages := by
  simp [handleSend, h, show "".isEmpty = true from rfl]

/-- Witness for C4 at a whitespace-only input. -/
theorem blank_input_sends_nothing_witness :
    jsTrim ({ initState with input := "  " } : ChatState).input = "" ∧
    ((handleSend { initState with input := "  " } 2 3 (.netError "down")).2 = none ∧
     (handleSend { initState with input := "  " } 2 3 (.netError "down")).1.messages
       = ({ initState with input := "  " } : ChatState).messages) :=
  ⟨by decide, blank_input_sends_nothing { initState with input := "  " } 2 3 (.netError "down") (by decide)⟩

/-- C5: for every chat submission with non-blank input made while `datasetId`
is unset, `handleSend` performs no network call and appends exactly one
error-flagged bot message. -/
theorem no_dataset_send_appends_one_error (s : ChatState) (i1 i2 : ℚ) (fo : FetchOutcome)
    (hin : jsTrim s.input ≠ "") (hds : s.datasetId = Js.null) :
    (handleSend s i1 i2 fo).2 = none ∧
    (handleSend s i1 i2 fo).1.messages
      = s.messages ++ [.plain i1 "Please upload a CSV file first (above)." .bot true] := by
  have hin' : (jsTrim s.input).isEmpty = false := by
    rcases h : (jsTrim s.input).isEmpty with _ | _
    · rfl
    · exact absurd ((String.isEmpty_iff _).mp h) hin
  simp [handleSend, hin', hds, jsTruthy, addBotMessage]

/-- Witness for C5 from the initial (no upload yet) state. -/
theorem no_dataset_send_appends_one_error_witness :
    (jsTrim ({ initState with input := "hi" } : ChatState).input ≠ "" ∧
     ({ initState with input := "hi" } : ChatState).datasetId = Js.null) ∧
    ((handleSend { initState with input := "hi" } 2 3 (.netError "down")).2 = none ∧
     (handleSend { initState with input := "hi" } 2 3 (.netError "down")).1.messages
       = ({ initState with input := "hi" } : ChatState).messages
           ++ [.plain 2 "Please upload a CSV file first (above)." .bot true]) :=
  ⟨⟨by decide, by rfl⟩,
   no_dataset_send_appends_one_error { initState with input := "hi" } 2 3
     (.netError "down") (by decide) (by rfl)⟩

/-- C9: every upload attempt that reaches the request stage (a file was
selected) ends with the loading flag cleared and the file-picker control
reset to the empty string, on the success path and on every failure path. -/
theorem upload_always_resets_loading_and_picker
    (s : ChatState) (fname : String) (i1 i2 : ℚ) (fo : FetchOutcome) :
    (handleFileUpload s (some fname) i1 i2 fo).1.isLoading = false ∧
    (handleFileUpload s (some fname) i1 i2 fo).1.fileInputValue = "" := by
  simp [handleFileUpload]

/-- C6: every upload attempt that fails (HTTP non-2xx, body `ok` not truthy,
network or parse error) records the failure reason in the upload error
banner, appends exactly one error-flagged bot message carrying that reason,
and leaves `datasetId` unchanged. -/
theorem failed_upload_records_error_only
    (s : ChatState) (fname : String) (i1 i2 : ℚ) (fo : FetchOutcome) (m : String)
    (h : uploadFailReason fo = some m) :
    (handleFileUpload s (some fname) i1 i2 fo).1.uploadError = m ∧
    (handleFileUpload s (some fname) i1 i2 fo).1.messages
      = s.messages ++ [.plain i1 ("Upload error: " ++ m) .bot true] ∧
    (handleFileUpload s (some fname) i1 i2 fo).1.datasetId = s.datasetId := by
  rcases fo with m0 | ⟨httpOk, status, jr⟩
  · simp [uploadFailReason] at h
    subst h
    simp [handleFileUpload, uploadDispatch, uploadCatch, addBotMessage]
  · rcases httpOk with _ | _
    · simp [uploadFailReason] at h
      subst h
      simp [handleFileUpload, uploadDispatch, uploadCatch, addBotMessage,
        cat_isEmpty_false "Upload failed: " (toString status) (by decide)]
    · rcases jr with m0 | body
      · simp [uploadFailReason] at h
        subst h
        simp [handleFileUpload, uploadDispatch, uploadCatch, addBotMessage]
      · rcases hok : jsTruthy (jsGet body "ok") with _ | _
        · simp [uploadFailReason, hok] at h
          subst h
          simp [handleFileUpload, uploadDispatch, uploadCatch, addBotMessage, hok]
        · simp [uploadFailReason, hok] at h

/-- Witness for C6 at an HTTP 500 upload failure. -/
theorem failed_upload_records_error_only_witness :
    uploadFailReason (.response false 500 (.error "bad json")) = some "Upload failed: 500" ∧
    ((handleFileUpload initState (some "a.csv") 2 3
        (.response false 500 (.error "bad json"))).1.uploadError = "Upload failed: 500" ∧
     (handleFileUpload initState (some "a.csv") 2 3
        (.response false 500 (.error "bad json"))).1.messages
       = initState.messages ++ [.plain 2 ("Upload error: " ++ "Upload failed: 500") .bot true] ∧
     (handleFileUpload initState (some "a.csv") 2 3
        (.response false 500 (.error "bad json"))).1.datasetId = initState.datasetId) :=
  ⟨by rfl,
   failed_upload_records_error_only initState "a.csv" 2 3
     (.response false 500 (.error "bad json")) "Upload failed: 500" (by rfl)⟩

/-- C1: every chat response accepted as successful whose results object
contains a `forecast_head` or `forecast_tail` array makes `handleSend` append
exactly one message after the echoed user message, and that message is of
kind forecast — no plain-text bot message and no JSON dump — regardless of
the assistant text. -/
theorem forecast_response_renders_structured
    (s : ChatState) (i1 i2 : ℚ) (status : Nat) (body : Js)
    (hin : jsTrim s.input ≠ "")
    (hds : jsTruthy s.datasetId = true)
    (hok : jsTruthy (jsGet body "ok") = true)
    (hft : hasForecastTablesOf (chatResultsOf body) = true) :
    ∃ fm, (handleSend s i1 i2 (.response true status (.ok body))).1.messages
        = s.messages ++ [.plain i1 (jsTrim s.input) .user false, fm]
      ∧ msgKind fm = some "forecast" := by
  have hin' : (jsTrim s.input).isEmpty = false := by
    rcases h : (jsTrim s.input).isEmpty with _ | _
    · rfl
    · exact absurd ((String.isEmpty_iff _).mp h) hin
  refine ⟨.forecast i2 (jsTruthy (jsGet body "error"))
      (if jsTruthy (chatAssistantText body) then chatAssistantText body else .str "")
      (chatResultsOf body), ?_, rfl⟩
  simp [handleSend, chatDispatch, hin', hds, hok, chatSuccess, hft,
    addUserMessage, addBotForecastMessage]

/-- Witness for C1: a response with an empty assistant message and a
one-row `forecast_head`. -/
theorem forecast_response_renders_structured_witness :
    (jsTrim ({ initState with input := "go", datasetId := Js.str "d1" } : ChatState).input ≠ "" ∧
     jsTruthy ({ initState with input := "go", datasetId := Js.str "d1" } : ChatState).datasetId = true ∧
     jsTruthy (jsGet (Js.obj [("ok", Js.bool true),
        ("results", Js.obj [("forecast_head", Js.arr [Js.obj [("yhat", Js.num 7)]])])]) "ok") = true ∧
     hasForecastTablesOf (chatResultsOf (Js.obj [("ok", Js.bool true),
        ("results", Js.obj [("forecast_head", Js.arr [Js.obj [("yhat", Js.num 7)]])])])) = true) ∧
    (∃ fm, (handleSend { initState with input := "go", datasetId := Js.str "d1" } 2 3
        (.response true 200 (.ok (Js.obj [("ok", Js.bool true),
          ("results", Js.obj [("forecast_head", Js.arr [Js.obj [("yhat", Js.num 7)]])])])))).1.messages
        = ({ initState with input := "go", datasetId := Js.str "d1" } : ChatState).messages
            ++ [.plain 2 (jsTrim ({ initState with input := "go", datasetId := Js.str "d1" } : ChatState).input) .user false, fm]
      ∧ msgKind fm = some "forecast") :=
  ⟨⟨by decide, by rfl, by rfl, by rfl⟩,
   forecast_response_renders_structured
     { initState with input := "go", datasetId := Js.str "d1" } 2 3 200
     (Js.obj [("ok", Js.bool true),
       ("results", Js.obj [("forecast_head", Js.arr [Js.obj [("yhat", Js.num 7)]])])])
     (by decide) (by rfl) (by rfl) (by rfl)⟩

/-- C10 counterexample: the successful response with body
`ok: true, assistant_message: 42` carries no (falsy) `error` field, yet the
one bot message appended after the user echo is error-flagged: the number 42
survives the `||` chain, neither dump coerces it, and `botMessageText.trim()`
throws a TypeError handled by the catch block. -/
theorem chat_error_flag_claim_counterexample :
    jsTruthy (jsGet (Js.obj [("ok", Js.bool true), ("assistant_message", Js.num 42)]) "ok")
      = true ∧
    jsTruthy (jsGet (Js.obj [("ok", Js.bool true), ("assistant_message", Js.num 42)]) "error")
      = false ∧
    ((handleSend { initState with input := "go", datasetId := Js.str "d1" } 2 3
        (.response true 200 (.ok (Js.obj [("ok", Js.bool true),
          ("assistant_message", Js.num 42)])))).1.messages.map msgIsError)
      = [false, false, true] :=
  ⟨by rfl, by rfl, by rfl⟩

/-- C10 (amended): every chat response accepted as successful appends
exactly one bot message after the echoed user message, and that message is
error-flagged exactly when the `error` field is truthy OR the normalized
reply is a non-string and no results object is present — in the latter case
the blank test `botMessageText.trim()` throws a TypeError and the catch
appends an error-flagged message even though `error` is falsy.  When the
reply is a string or a results object is present, the flag matches the
truthiness of `error` on both the forecast and the plain-text path. -/
theorem chat_success_error_flag_cases
    (s : ChatState) (i1 i2 : ℚ) (status : Nat) (body : Js)
    (hin : jsTrim s.input ≠ "")
    (hds : jsTruthy s.datasetId = true)
    (hok : jsTruthy (jsGet body "ok") = true) :
    ∃ m, (handleSend s i1 i2 (.response true status (.ok body))).1.messages
        = s.messages ++ [.plain i1 (jsTrim s.input) .user false, m]
      ∧ msgIsError m
          = (jsTruthy (jsGet body "error")
             || (!(isStrJs (chatAssistantText body)) && (chatResultsOf body).isNone)) := by
  have hin' : (jsTrim s.input).isEmpty = false := by
    rcases h : (jsTrim s.input).isEmpty with _ | _
    · rfl
    · exact absurd ((String.isEmpty_iff _).mp h) hin
  rcases hres : chatResultsOf body with _ | r
  · have hft : hasForecastTablesOf (chatResultsOf body) = false := by
      rw [hres]; rfl
    rcases herr : jsTruthy (jsGet body "error") with _ | _
    · cases hav : chatAssistantText body
      case str sv =>
        cases hpo : chatPlainOutcome body with
        | error m =>
            exfalso
            simp [chatPlainOutcome, hres, herr, hav] at hpo
        | ok t =>
            refine ⟨.plain i2 t .bot (jsTruthy (jsGet body "error")), ?_,
              by simp [msgIsError, herr, hav, isStrJs]⟩
            simp [handleSend, chatDispatch, hin', hds, hok, chatSuccess, hft, hpo,
              addUserMessage, addBotMessage]
      all_goals
        have hpo : chatPlainOutcome body = .error trimTypeErrorMsg := by
          simp [chatPlainOutcome, hres, herr, hav]
      all_goals
        refine ⟨.plain i2 ("Error: " ++ trimTypeErrorMsg) .bot true, ?_,
          by simp [msgIsError, herr, hav, isStrJs, hres]⟩
      all_goals
        simp [handleSend, chatDispatch, hin', hds, hok, chatSuccess, hft, hpo,
          chatCatch, addUserMessage, addBotMessage,
          show trimTypeErrorMsg.isEmpty = false from rfl]
    · cases hpo : chatPlainOutcome body with
      | error m =>
          exfalso
          simp [chatPlainOutcome, hres, herr, jsPlusStr] at hpo
      | ok t =>
          refine ⟨.plain i2 t .bot (jsTruthy (jsGet body "error")), ?_,
            by simp [msgIsError, herr]⟩
          simp [handleSend, chatDispatch, hin', hds, hok, chatSuccess, hft, hpo,
            addUserMessage, addBotMessage]
  · have hnone : (chatResultsOf body).isNone = false := by rw [hres]; rfl
    by_cases hft : hasForecastTablesOf (chatResultsOf body) = true
    · refine ⟨.forecast i2 (jsTruthy (jsGet body "error"))
          (if jsTruthy (chatAssistantText body) then chatAssistantText body else .str "")
          (chatResultsOf body), ?_, by simp [msgIsError, hnone]⟩
      simp [handleSend, chatDispatch, hin', hds, hok, chatSuccess, hft,
        addUserMessage, addBotForecastMessage]
    · rcases herr : jsTruthy (jsGet body "error") with _ | _ <;>
        · cases hpo : chatPlainOutcome body with
          | error m =>
              exfalso
              simp [chatPlainOutcome, hres, herr, jsPlusStr] at hpo
          | ok t =>
              refine ⟨.plain i2 t .bot (jsTruthy (jsGet body "error")), ?_,
                by simp [msgIsError, hnone, herr]⟩
              simp [handleSend, chatDispatch, hin', hds, hok, chatSuccess, hft, hpo,
                addUserMessage, addBotMessage]

/-- Witness for C10 (amended): a successful plain-text response with a
string reply and a truthy `error` field. -/
theorem chat_success_error_flag_cases_witness :
    (jsTrim ({ initState with input := "go", datasetId := Js.str "d1" } : ChatState).input ≠ "" ∧
     jsTruthy ({ initState with input := "go", datasetId := Js.str "d1" } : ChatState).datasetId = true ∧
     jsTruthy (jsGet (Js.obj [("ok", Js.bool true), ("reply", Js.str "done"),
        ("error", Js.str "column missing")]) "ok") = true) ∧
    (∃ m, (handleSend { initState with input := "go", datasetId := Js.str "d1" } 2 3
        (.response true 200 (.ok (Js.obj [("ok", Js.bool true), ("reply", Js.str "done"),
          ("error", Js.str "column missing")])))).1.messages
        = ({ initState with input := "go", datasetId := Js.str "d1" } : ChatState).messages
            ++ [.plain 2 (jsTrim ({ initState with input := "go", datasetId := Js.str "d1" } : ChatState).input) .user false, m]
      ∧ msgIsError m
          = (jsTruthy (jsGet (Js.obj [("ok", Js.bool true), ("reply", Js.str "done"),
              ("error", Js.str "column missing")]) "error")
             || (!(isStrJs (chatAssistantText (Js.obj [("ok", Js.bool true), ("reply", Js.str "done"),
                  ("error", Js.str "column missing")])))
                 && (chatResultsOf (Js.obj [("ok", Js.bool true), ("reply", Js.str "done"),
                      ("error", Js.str "column missing")])).isNone))) :=
  ⟨⟨by decide, by rfl, by rfl⟩,
   chat_success_error_flag_cases
     { initState with input := "go", datasetId := Js.str "d1" } 2 3 200
     (Js.obj [("ok", Js.bool true), ("reply", Js.str "done"),
       ("error", Js.str "column missing")])
     (by decide) (by rfl) (by rfl)⟩

/-- The marker fold started from a found index `a` computes the minimum of
`a` and all marker indices occurring in `t`. -/
theorem foldl_markerStep_from_nat (t : String) :
    ∀ (ms : List String) (a : Nat),
      ms.foldl (markerStep t) (a : Int)
        = (((ms.filterMap (fun m => natIndexOf t m)).foldl min a : Nat) : Int) := by
  intro ms
  induction ms with
  | nil => intro a; rfl
  | cons m ms ih =>
      intro a
      show List.foldl (markerStep t) (markerStep t (a : Int) m) ms = _
      cases hm : natIndexOf t m with
      | none =>
          have hstep : markerStep t (a : Int) m = (a : Int) := by
            simp [markerStep, jsIndexOf, hm]
          rw [hstep]
          simpa [hm] using ih a
      | some i =>
          have h1 : ¬((i : Int) = -1) := by omega
          have h2 : ¬((a : Int) = -1) := by omega
          have hstep : markerStep t (a : Int) m = ((min a i : Nat) : Int) := by
            simp [markerStep, jsIndexOf, hm, h1, h2, Nat.cast_min]
          rw [hstep]
          simpa [hm] using ih (min a i)

/-- The marker fold started from the `-1` sentinel computes `-1` when no
marker occurs and the minimum occurring index otherwise. -/
theorem foldl_markerStep_start (t : String) :
    ∀ (ms : List String),
      ms.foldl (markerStep t) (-1)
        = (match ms.filterMap (fun m => natIndexOf t m) with
           | [] => (-1 : Int)
           | i :: rest => ((rest.foldl min i : Nat) : Int)) := by
  intro ms
  induction ms with
  | nil => rfl
  | cons m ms ih =>
      show List.foldl (markerStep t) (markerStep t (-1) m) ms = _
      cases hm : natIndexOf t m with
      | none =>
          have hstep : markerStep t (-1) m = (-1 : Int) := by
            simp [markerStep, jsIndexOf, hm]
          rw [hstep]
          simpa [hm] using ih
      | some i =>
          have h1 : ¬((i : Int) = -1) := by omega
          have hstep : markerStep t (-1) m = (i : Int) := by
            simp [markerStep, jsIndexOf, hm, h1]
          rw [hstep, foldl_markerStep_from_nat t ms i]
          simp [hm]

/-- For a nonempty input string the code function agrees with the claim-side
description (earliest marker, trim, fallback when empty). -/
theorem cleanAssistantText_eq_spec (s : String) (h : s ≠ "") :
    cleanAssistantText (Js.str s) = cleanSpec s := by
  have hs' : s.isEmpty = false := by
    rcases hh : s.isEmpty with _ | _
    · rfl
    · exact absurd ((String.isEmpty_iff _).mp hh) h
  unfold cleanAssistantText cleanSpec
  simp only [jsTruthy, hs', Bool.not_false, Bool.not_true, jsToString,
    Bool.false_eq_true, if_false, if_true]
  rw [foldl_markerStep_start s cutMarkers]
  cases hh : cutMarkers.filterMap (fun m => natIndexOf s m) with
  | nil => simp
  | cons i rest =>
      have h1 : ¬(((rest.foldl min i : Nat) : Int) = -1) := by omega
      simp [h1, List.min?, Int.toNat_natCast]

/-- C2 (amended): for every nonempty input string, `cleanAssistantText`
truncates at the earliest occurrence across the fixed marker set, trims
whitespace, and returns the fallback "Forecast completed." whenever the
result is empty; in particular the claimed concrete examples hold.  The
empty input, however, returns the empty string (not the fallback). -/
theorem cleanAssistantText_spec_behavior :
    (∀ s : String, s ≠ "" → cleanAssistantText (Js.str s) = cleanSpec s) ∧
    cleanAssistantText (Js.str "Plan ready.\nForecast (head): ...") = "Plan ready." ∧
    (∀ m ∈ cutMarkers, cleanAssistantText (Js.str m) = "Forecast completed.") ∧
    cleanAssistantText (Js.str "") = "" :=
  ⟨fun s h => cleanAssistantText_eq_spec s h, by decide, by decide, by decide⟩

/-- Witness for C2 (amended) at a concrete nonempty input. -/
theorem cleanAssistantText_spec_behavior_witness :
    ("Plan ready." : String) ≠ "" ∧
    cleanAssistantText (Js.str "Plan ready.") = cleanSpec "Plan ready." :=
  ⟨by decide, cleanAssistantText_spec_behavior.1 "Plan ready." (by decide)⟩

/-- C2 counterexample: on the empty input the code returns the empty string
while the claimed description (fallback whenever the result is empty)
requires "Forecast completed.". -/
theorem cleanAssistantText_empty_input_no_fallback :
    cleanAssistantText (Js.str "") = "" ∧
    cleanSpec "" = "Forecast completed." ∧
    cleanAssistantText (Js.str "") ≠ cleanSpec "" :=
  ⟨by decide, by decide, by decide⟩

/-- The nested key fold of `DataTable` equals the fold over the concatenated
key lists, from any accumulator. -/
theorem foldl_addKey_flatMap (rs : List Js) :
    ∀ acc, rs.foldl (fun acc r => (rowKeys r).foldl addKey acc) acc
      = (rs.flatMap rowKeys).foldl addKey acc := by
  induction rs with
  | nil => intro acc; rfl
  | cons r rs ih =>
      intro acc
      rw [List.flatMap_cons, List.foldl_append]
      exact ih _

/-- C3: the row-table renderer computes its column list as the union of all
row keys in first-seen order, renders one row of cells per input element and
one cell per column, renders missing, `null` and `undefined` values as the
empty string and every other value stringified, and behaves as claimed on
the concrete two-row example. -/
theorem dataTable_renders_rows :
    (∀ rs : List Js, tableColumns rs = firstSeenUnion rs) ∧
    (∀ (rs : List Js) (tv : TableView), dataTable (Js.arr rs) = some tv →
       tv.columns = firstSeenUnion rs ∧
       tv.body.length = rs.length ∧
       ∀ (i : Nat) (h1 : i < tv.body.length) (h2 : i < rs.length),
         tv.body.get ⟨i, h1⟩ = tv.columns.map (renderCell (rs.get ⟨i, h2⟩))) ∧
    (∀ (r : Js) (c : String),
       (jsGet r c = Js.null ∨ jsGet r c = Js.undefined) → renderCell r c = "") ∧
    (∀ (r : Js) (c : String) (v : Js),
       jsGet r c = v → v ≠ Js.null → v ≠ Js.undefined → renderCell r c = jsToString v) ∧
    dataTable (Js.arr [Js.obj [("a", Js.num 1), ("b", Js.num 2)],
                       Js.obj [("b", Js.num 3), ("c", Js.num 4)]])
      = some { columns := ["a", "b", "c"],
               body := [["1", "2", ""], ["", "3", "4"]] } := by
  refine ⟨fun rs => foldl_addKey_flatMap rs [], ?_, ?_, ?_, by rfl⟩
  · intro rs tv h
    rcases he : rs.isEmpty with _ | _
    · rw [dataTable, he] at h
      simp at h
      subst h
      refine ⟨foldl_addKey_flatMap rs [], List.length_map .., ?_⟩
      intro i h1 h2
      simp [List.getElem_map]
    · rw [dataTable, he] at h
      simp at h
  · intro r c h
    rcases h with h | h <;> rw [renderCell, h]
  · intro r c v hv h0 h1
    rw [renderCell, hv]
    cases v with
    | null => exact absurd rfl h0
    | undefined => exact absurd rfl h1
    | bool b => rfl
    | num n => rfl
    | str s => rfl
    | arr xs => rfl
    | obj fs => rfl

/-- Witness for C3 at one concrete row, column and non-null value. -/
theorem dataTable_renders_rows_witness :
    (jsGet (Js.obj [("a", Js.num 1)]) "a" = Js.num 1 ∧
     Js.num 1 ≠ Js.null ∧ Js.num 1 ≠ Js.undefined) ∧
    renderCell (Js.obj [("a", Js.num 1)]) "a" = jsToString (Js.num 1) :=
  ⟨⟨rfl, fun h => Js.noConfusion h, fun h => Js.noConfusion h⟩,
   dataTable_renders_rows.2.2.2.1 (Js.obj [("a", Js.num 1)]) "a" (Js.num 1)
     rfl (fun h => Js.noConfusion h) (fun h => Js.noConfusion h)⟩

/-- The chat dispatch never touches the dataset id. -/
theorem chatDispatch_datasetId (s : ChatState) (i2 : ℚ) (fo : FetchOutcome) :
    (chatDispatch s i2 fo).datasetId = s.datasetId := by
  cases fo with
  | netError m => simp [chatDispatch, chatCatch, addBotMessage]
  | response httpOk st jr =>
      cases httpOk with
      | false => simp [chatDispatch, chatCatch, addBotMessage]
      | true =>
          cases jr with
          | error m => simp [chatDispatch, chatCatch, addBotMessage]
          | ok body =>
              by_cases hok : jsTruthy (jsGet body "ok")
              · by_cases hft : hasForecastTablesOf (chatResultsOf body)
                · simp [chatDispatch, chatSuccess, hok, hft, addBotForecastMessage]
                · cases hpo : chatPlainOutcome body with
                  | ok t =>
                      simp [chatDispatch, chatSuccess, hok, hft, hpo, addBotMessage]
                  | error m =>
                      simp [chatDispatch, chatSuccess, hok, hft, hpo,
                        chatCatch, addBotMessage]
              · simp [chatDispatch, chatCatch, addBotMessage, hok]

/-- `handleSend` never changes the dataset id. -/
theorem handleSend_datasetId (s : ChatState) (i1 i2 : ℚ) (fo : FetchOutcome) :
    (handleSend s i1 i2 fo).1.datasetId = s.datasetId := by
  by_cases hb : (jsTrim s.input).isEmpty
  · simp [handleSend, hb]
  · by_cases hds : jsTruthy s.datasetId <;>
      simp [handleSend, hb, hds, chatDispatch_datasetId, addUserMessage, addBotMessage]

/-- The upload success tail stores exactly the returned dataset id. -/
theorem uploadSuccess_datasetId (s : ChatState) (fname : String) (i1 i2 : ℚ) (body : Js) :
    (uploadSuccess s fname i1 i2 body).datasetId = jsGet body "dataset_id" := by
  simp [uploadSuccess, addBotPreviewMessage, addBotMessage]

/-- Running a trace whose upload events all succeed leaves the dataset id of
the most recent successful upload (or the starting value when none). -/
theorem run_datasetId (tr : List Event) : ∀ s : ChatState,
    (∀ e ∈ tr, uploadEventOk e = true) →
    (run s tr).datasetId = lastUploadId s.datasetId tr := by
  induction tr with
  | nil => intro s h; rfl
  | cons e tr ih =>
      intro s h
      have he := h e (List.mem_cons_self ..)
      have ht : ∀ e2 ∈ tr, uploadEventOk e2 = true :=
        fun e2 m => h e2 (List.mem_cons_of_mem _ m)
      rw [run, lastUploadId, ih (step s e) ht]
      congr 1
      cases e with
      | chat t i1 i2 fo =>
          simp [step, uploadResponseBody, handleSend_datasetId]
      | upload f i1 i2 fo =>
          cases f with
          | none => simp [step, handleFileUpload, uploadResponseBody]
          | some fname =>
              cases fo with
              | netError m => simp [uploadEventOk] at he
              | response httpOk st jr =>
                  cases httpOk with
                  | false => simp [uploadEventOk] at he
                  | true =>
                      cases jr with
                      | error m => simp [uploadEventOk] at he
                      | ok body =>
                          have he' : jsTruthy (jsGet body "ok") = true := by
                            simpa [uploadEventOk] using he
                          simp [step, handleFileUpload, uploadDispatch, he',
                            uploadResponseBody, uploadSuccess_datasetId]

/-- C7: over any interaction sequence whose uploads succeed, the session
dataset id after each step equals the `dataset_id` of the most recent
successful upload response, and every chat request that is actually sent
carries the dataset id of the state it was sent from. -/
theorem dataset_id_tracks_last_upload :
    (∀ tr : List Event, (∀ e ∈ tr, uploadEventOk e = true) →
       (run initState tr).datasetId = lastUploadId Js.null tr) ∧
    (∀ (s : ChatState) (i1 i2 : ℚ) (fo : FetchOutcome) (req : ChatRequest),
       (handleSend s i1 i2 fo).2 = some req → req.dataset_id = s.datasetId) := by
  constructor
  · intro tr h
    simpa [initState] using run_datasetId tr initState h
  · intro s i1 i2 fo req h
    by_cases hb : (jsTrim s.input).isEmpty
    · simp [handleSend, hb] at h
    · by_cases hds : jsTruthy s.datasetId
      · rw [handleSend] at h
        simp [hb, hds, addUserMessage] at h
        rw [← h]
      · simp [handleSend, hb, hds] at h

/-- Witness for C7: one successful upload updates the dataset id to the
returned value. -/
theorem dataset_id_tracks_last_upload_witness :
    (∀ e ∈ [Event.upload (some "a.csv") 2 3 (.response true 200 (.ok
        (Js.obj [("ok", Js.bool true), ("dataset_id", Js.str "d1")])))],
       uploadEventOk e = true) ∧
    (run initState [Event.upload (some "a.csv") 2 3 (.response true 200 (.ok
        (Js.obj [("ok", Js.bool true), ("dataset_id", Js.str "d1")])))]).datasetId
      = lastUploadId Js.null
          [Event.upload (some "a.csv") 2 3 (.response true 200 (.ok
            (Js.obj [("ok", Js.bool true), ("dataset_id", Js.str "d1")])))] :=
  ⟨by decide,
   dataset_id_tracks_last_upload.1
     [Event.upload (some "a.csv") 2 3 (.response true 200 (.ok
       (Js.obj [("ok", Js.bool true), ("dataset_id", Js.str "d1")])))]
     (by decide)⟩

/-- The chat catch block appends exactly one message, with the supplied id
draw. -/
theorem chatCatch_messages (s : ChatState) (i : ℚ) (m : String) :
    ∃ x, (chatCatch s i m).messages = s.messages ++ [x] ∧ msgId x = i := by
  refine ⟨.plain i ("Error: " ++
    (if m.isEmpty then "Sorry, something went wrong. Please try again." else m))
    .bot true, ?_, rfl⟩
  simp [chatCatch, addBotMessage]

/-- The chat success tail appends exactly one message, with the supplied id
draw. -/
theorem chatSuccess_messages (s : ChatState) (i : ℚ) (body : Js) :
    ∃ x, (chatSuccess s i body).messages = s.messages ++ [x] ∧ msgId x = i := by
  by_cases hft : hasForecastTablesOf (chatResultsOf body)
  · refine ⟨.forecast i (jsTruthy (jsGet body "error"))
      (if jsTruthy (chatAssistantText body) then chatAssistantText body else .str "")
      (chatResultsOf body), ?_, rfl⟩
    simp [chatSuccess, hft, addBotForecastMessage]
  · cases hpo : chatPlainOutcome body with
    | ok t =>
        refine ⟨.plain i t .bot (jsTruthy (jsGet body "error")), ?_, rfl⟩
        simp [chatSuccess, hft, hpo, addBotMessage]
    | error m =>
        obtain ⟨x, hx, hid⟩ := chatCatch_messages s i m
        refine ⟨x, ?_, hid⟩
        simpa [chatSuccess, hft, hpo] using hx

/-- The chat dispatch appends exactly one message, with the supplied id
draw. -/
theorem chatDispatch_messages (s : ChatState) (i2 : ℚ) (fo : FetchOutcome) :
    ∃ x, (chatDispatch s i2 fo).messages = s.messages ++ [x] ∧ msgId x = i2 := by
  cases fo with
  | netError m => simpa [chatDispatch] using chatCatch_messages s i2 m
  | response httpOk st jr =>
      cases httpOk with
      | false =>
          simpa [chatDispatch] using
            chatCatch_messages s i2 ("Chat request failed: " ++ toString st)
      | true =>
          cases jr with
          | error m => simpa [chatDispatch] using chatCatch_messages s i2 m
          | ok body =>
              by_cases hok : jsTruthy (jsGet body "ok")
              · simpa [chatDispatch, hok] using chatSuccess_messages s i2 body
              · simpa [chatDispatch, hok] using
                  chatCatch_messages s i2
                    (if jsTruthy (jsGet body "error")
                     then jsToString (jsGet body "error") else "Chat failed")

/-- `handleSend` appends a block of messages whose ids come, in order, from
the draws `i1`, `i2`. -/
theorem handleSend_messages_shape (s : ChatState) (i1 i2 : ℚ) (fo : FetchOutcome) :
    ∃ l, (handleSend s i1 i2 fo).1.messages = s.messages ++ l ∧
      (l.map msgId).Sublist [i1, i2] := by
  by_cases hb : (jsTrim s.input).isEmpty
  · exact ⟨[], by simp [handleSend, hb], List.nil_sublist _⟩
  · by_cases hds : jsTruthy s.datasetId
    · obtain ⟨x, hx, hid⟩ := chatDispatch_messages
        { addUserMessage { s with chatError := "" } i1 (jsTrim s.input) with
          input := "", isLoading := true } i2 fo
      refine ⟨[.plain i1 (jsTrim s.input) .user false, x], ?_, ?_⟩
      · rw [handleSend]
        simp only [hb, hds, Bool.not_true, Bool.false_eq_true, if_false, if_true,
          Bool.true_eq_false]
        rw [hx]
        simp [addUserMessage]
      · simp only [List.map_cons, List.map_nil, hid]
        exact List.Sublist.refl _
    · refine ⟨[.plain i1 "Please upload a CSV file first (above)." .bot true], ?_, ?_⟩
      · simp [handleSend, hb, hds, addBotMessage]
      · simp [msgId]

/-- The upload catch block appends exactly one message, with id draw `i1`. -/
theorem uploadCatch_messages (s : ChatState) (i : ℚ) (m : String) :
    ∃ x, (uploadCatch s i m).messages = s.messages ++ [x] ∧ msgId x = i := by
  refine ⟨.plain i ("Upload error: " ++ (if m.isEmpty then "Failed to upload file." else m))
    .bot true, ?_, rfl⟩
  simp [uploadCatch, addBotMessage]

/-- The upload dispatch appends a block of messages whose ids come, in
order, from the draws `i1`, `i2`. -/
theorem uploadDispatch_messages (s : ChatState) (fname : String) (i1 i2 : ℚ)
    (fo : FetchOutcome) :
    ∃ l, (uploadDispatch s fname i1 i2 fo).messages = s.messages ++ l ∧
      (l.map msgId).Sublist [i1, i2] := by
  have one : ∀ (x : Msg), msgId x = i1 →
      ((([x].map msgId)).Sublist [i1, i2]) := by
    intro x hx
    simp [hx]
  cases fo with
  | netError m =>
      obtain ⟨x, hx, hid⟩ := uploadCatch_messages s i1 m
      exact ⟨[x], by simpa [uploadDispatch] using hx, one x hid⟩
  | response httpOk st jr =>
      cases httpOk with
      | false =>
          obtain ⟨x, hx, hid⟩ := uploadCatch_messages s i1 ("Upload failed: " ++ toString st)
          exact ⟨[x], by simpa [uploadDispatch] using hx, one x hid⟩
      | true =>
          cases jr with
          | error m =>
              obtain ⟨x, hx, hid⟩ := uploadCatch_messages s i1 m
              exact ⟨[x], by simpa [uploadDispatch] using hx, one x hid⟩
          | ok body =>
              by_cases hok : jsTruthy (jsGet body "ok")
              · refine ⟨[.uploadPreview i1
                    (if jsTruthy (jsGet body "filename")
                     then jsToString (jsGet body "filename") else fname)
                    (jsGet body "dataset_id")
                    (match jsOr (jsGet (jsGet body "preview") "head") (.arr []) with
                     | .arr xs => xs | _ => []),
                  .plain i2 uploadInstruction .bot false], ?_, ?_⟩
                · simp [uploadDispatch, hok, uploadSuccess,
                    addBotPreviewMessage, addBotMessage]
                · exact List.Sublist.refl _
              · obtain ⟨x, hx, hid⟩ := uploadCatch_messages s i1
                  (if jsTruthy (jsGet body "error")
                   then jsToString (jsGet body "error") else "Upload failed")
                exact ⟨[x], by simpa [uploadDispatch, hok] using hx, one x hid⟩

/-- Every event appends a block of messages whose ids are among its draws,
in order. -/
theorem step_messages_shape (s : ChatState) (e : Event) :
    ∃ l, (step s e).messages = s.messages ++ l ∧
      (l.map msgId).Sublist (eventIds e) := by
  cases e with
  | chat t i1 i2 fo =>
      obtain ⟨l, hl, hsub⟩ := handleSend_messages_shape { s with input := t } i1 i2 fo
      exact ⟨l, by simpa [step] using hl, hsub⟩
  | upload f i1 i2 fo =>
      cases f with
      | none => exact ⟨[], by simp [step, handleFileUpload], List.nil_sublist _⟩
      | some fname =>
          obtain ⟨l, hl, hsub⟩ := uploadDispatch_messages
            { s with uploadError := "", chatError := "", isLoading := true } fname i1 i2 fo
          refine ⟨l, ?_, hsub⟩
          rw [step, handleFileUpload]
          simpa using hl

/-- A run appends a block of messages whose ids are among the draws of its
events, in order. -/
theorem run_messages_shape (tr : List Event) : ∀ s : ChatState,
    ∃ L, (run s tr).messages = s.messages ++ L ∧
      (L.map msgId).Sublist (tr.flatMap eventIds) := by
  induction tr with
  | nil => intro s; exact ⟨[], by simp [run], List.nil_sublist _⟩
  | cons e tr ih =>
      intro s
      obtain ⟨l, hl, hsub⟩ := step_messages_shape s e
      obtain ⟨L, hL, hsubL⟩ := ih (step s e)
      refine ⟨l ++ L, ?_, ?_⟩
      · rw [run, hL, hl, List.append_assoc]
      · rw [List.flatMap_cons, List.map_append]
        exact hsub.append hsubL

/-- C8 (amended): each message id equals the `Date.now() + Math.random()`
draw consumed at its append, so message ids are pairwise distinct whenever
the draws of the run (together with the initial message id 1) are pairwise
distinct; the code does not guarantee distinctness of the draws themselves,
so ids can collide (see the counterexample). -/
theorem message_ids_unique_when_draws_distinct (tr : List Event)
    (h : ((1 : ℚ) :: tr.flatMap eventIds).Nodup) :
    ((run initState tr).messages.map msgId).Nodup := by
  obtain ⟨L, hm, hsub⟩ := run_messages_shape tr initState
  rw [hm, List.map_append]
  have h0 : initState.messages.map msgId = [1] := rfl
  rw [h0]
  have h2 : ((1 : ℚ) :: L.map msgId).Nodup :=
    h.sublist (List.Sublist.cons₂ 1 hsub)
  simpa using h2

/-- Witness for C8 (amended): a run with pairwise distinct draws yields
pairwise distinct message ids. -/
theorem message_ids_unique_when_draws_distinct_witness :
    (((1 : ℚ) :: ([Event.chat "hi" 2 3 (.netError "down")].flatMap eventIds)).Nodup) ∧
    ((run initState [Event.chat "hi" 2 3 (.netError "down")]).messages.map msgId).Nodup :=
  ⟨by decide,
   message_ids_unique_when_draws_distinct [Event.chat "hi" 2 3 (.netError "down")] (by decide)⟩

/-- C8 counterexample: when two appends draw the same `Date.now() +
Math.random()` value, two distinct messages receive the same id — here a
successful upload whose preview and instruction messages both draw 4. -/
theorem message_ids_can_collide :
    ((run initState [Event.upload (some "a.csv") 4 4 (.response true 200 (.ok
        (Js.obj [("ok", Js.bool true), ("dataset_id", Js.str "d1")])))]).messages.map msgId)
      = [1, 4, 4] ∧
    ¬ ((run initState [Event.upload (some "a.csv") 4 4 (.response true 200 (.ok
        (Js.obj [("ok", Js.bool true), ("dataset_id", Js.str "d1")])))]).messages.map msgId).Nodup := by
  have h1 : ((run initState [Event.upload (some "a.csv") 4 4 (.response true 200 (.ok
      (Js.obj [("ok", Js.bool true), ("dataset_id", Js.str "d1")])))]).messages.map msgId)
      = [1, 4, 4] := by rfl
  exact ⟨h1, by rw [h1]; decide⟩

end ChatUI
